import Mathlib

/-!
A shallow embedding of `boneless_sim/sim.py` (class `BonelessSimulator`), an
instruction-level simulator for the Boneless 16-bit CPU, together with proofs
of the specification's claims about it.

Modelling conventions:
* Python machine integers are `Nat` (memory cells, fields) or `Int` (the
  `raw` temporaries of the A-class handler, which can go negative in SUB/CMP).
* `array.array("H", ...)` memory is a `List Nat`; in-range stores are exact
  (`Int.toNat` is the identity on `[0, 2^16)` values, which the invariant
  proofs establish).  Reads use `List.getD _ 0`; theorems that depend on a
  fetch being in bounds carry that bound as a hypothesis.
* Python `raise NotImplementedError(msg)` becomes `Except.error`; in every
  handler the raise happens before any mutation of `self`, so the
  exception-as-`Except` translation loses no partial state.
* The Python flag dict `{"Z", "S", "C", "V"}` becomes four `Nat` fields
  (Python stores `int` 0/1, and a `bool` for Z, with `True == 1`).
* The I/O callback slot only has to support "store and rebind" for the claims
  in scope (the two implemented instruction classes never invoke it), so the
  bound hook is represented by an abstract `Option Nat` token.
-/

namespace Boneless

/-- The error raised by the simulator.  The source raises
`NotImplementedError(msg)` at three sites, with messages "Step Instruction"
(the spec's `UnimplementedInstruction`), "Do A Class" and "Do I Class"
(the spec's `InvalidEncoding`). -/
inductive PyError where
  | notImplemented (msg : String)
  deriving DecidableEq, Repr

/-- Source `sign(val)`: `int((val & 0x08000) != 0)`.
Python's `&` on arbitrary ints is two's-complement bitwise and (`Int.land`). -/
def sign (val : Int) : Nat :=
  if Int.land val 0x8000 ≠ 0 then 1 else 0

/-- The simulator state: the fields assigned by `__init__`, in order. -/
structure BonelessSimulator where
  sim_active : Bool
  window : Nat
  pc : Nat
  flagZ : Nat
  flagS : Nat
  flagC : Nat
  flagV : Nat
  mem : List Nat
  io_callback : Option Nat
  deriving DecidableEq, Repr

instance : DecidableEq (Except PyError BonelessSimulator) := fun a b =>
  match a, b with
  | .ok x, .ok y =>
    if h : x = y then .isTrue (by rw [h]) else .isFalse (by simp [h])
  | .error e, .error f =>
    if h : e = f then .isTrue (by rw [h]) else .isFalse (by simp [h])
  | .ok _, .error _ => .isFalse (by simp)
  | .error _, .ok _ => .isFalse (by simp)

/-- Constructor `__init__(start_pc, memsize, io_callback)`: zero-filled memory of
`memsize` cells, `window = 0`, all flags 0, not active. -/
def construct (start_pc memsize : Nat) (io_cb : Option Nat) : BonelessSimulator :=
  { sim_active := false, window := 0, pc := start_pc,
    flagZ := 0, flagS := 0, flagC := 0, flagV := 0,
    mem := List.replicate memsize 0, io_callback := io_cb }

/-- The loop body of `load_program`: `self.mem[i + start] = c` for each
element of `contents` in order. -/
def store_seq (mem : List Nat) (start : Nat) : List Nat → List Nat
  | [] => mem
  | c :: cs => store_seq (mem.set start c) (start + 1) cs

namespace BonelessSimulator

/-- Context entry `__enter__`: sets `sim_active` (and returns `self`). -/
def enterScope (s : BonelessSimulator) : BonelessSimulator :=
  { s with sim_active := true }

/-- Context exit `__exit__`: clears `sim_active` unconditionally. -/
def exitScope (s : BonelessSimulator) : BonelessSimulator :=
  { s with sim_active := false }

/-- Method `regs(self)`: the slice `self.mem[window : window + 16]`. -/
def regs (s : BonelessSimulator) : List Nat :=
  (s.mem.drop s.window).take 16

/-- Method `reg_loc(self, offs) = self.window + offs`. -/
def reg_loc (s : BonelessSimulator) (offs : Nat) : Nat :=
  s.window + offs

/-- Method `read_reg(self, reg) = self.mem[self.reg_loc(reg)]`. -/
def read_reg (s : BonelessSimulator) (reg : Nat) : Nat :=
  s.mem.getD (s.reg_loc reg) 0

/-- Method `set_pc(self, new_pc)`: gated on `not self.sim_active`. -/
def set_pc (s : BonelessSimulator) (new_pc : Nat) : BonelessSimulator :=
  if !s.sim_active then { s with pc := new_pc } else s

/-- Method `write_reg(self, reg, val)`: gated on `not self.sim_active`. -/
def write_reg (s : BonelessSimulator) (reg val : Nat) : BonelessSimulator :=
  if !s.sim_active then { s with mem := s.mem.set (s.reg_loc reg) val } else s

/-- Method `load_program(self, contents, start)`: gated on `not self.sim_active`. -/
def load_program (s : BonelessSimulator) (contents : List Nat) (start : Nat) :
    BonelessSimulator :=
  if !s.sim_active then { s with mem := store_seq s.mem start contents } else s

/-- Method `register_io(self, callback)`: gated on `not self.sim_active`. -/
def register_io_callback (s : BonelessSimulator) (cb : Nat) : BonelessSimulator :=
  if !s.sim_active then { s with io_callback := some cb } else s

/-- Method `_write_reg(self, reg, val)`: the internal, ungated register write
`self.mem[self.reg_loc(reg)] = val`.  The Python `array("H")` store accepts
exactly the ints in `[0, 2^16)`; inside that range `Int.toNat` is exact. -/
def writeRegInternal (s : BonelessSimulator) (reg : Nat) (val : Int) :
    BonelessSimulator :=
  { s with mem := s.mem.set (s.reg_loc reg) val.toNat }

/-- Handler `do_a_class(self, opcode)`: the arithmetic/logic handler.  Field
extraction, the `if code and (typ in range(3))` / `elif not code and typ in
range(3)` / `else raise` chain, and the trailing `Z`/`S` flag updates which
Python applies to the `raw` of whichever branch ran. -/
def do_a_class (s : BonelessSimulator) (opcode : Nat) :
    Except PyError BonelessSimulator :=
  let dst := (0x0700 &&& opcode) >>> 8
  let opa := (0x00E0 &&& opcode) >>> 5
  let opb := (0x001C &&& opcode) >>> 2
  let typ := 0x0003 &&& opcode
  let code := (0x0800 &&& opcode) >>> 11
  let val_a := s.read_reg opa
  let val_b := s.read_reg opb
  let s_a := sign (val_a : Int)
  let s_b := sign (val_b : Int)
  let branch : Except PyError (BonelessSimulator × Int) :=
    if code ≠ 0 ∧ typ < 3 then
      if typ = 0x00 then
        -- ADD
        let raw : Int := (val_a : Int) + (val_b : Int)
        let s_r := sign raw
        let fC : Nat := if raw > 65535 then 1 else 0
        let fV : Nat :=
          if (s_a ≠ 0 ∧ s_b ≠ 0 ∧ ¬s_r ≠ 0) ∨ (¬s_a ≠ 0 ∧ ¬s_b ≠ 0 ∧ s_r ≠ 0)
          then 1 else 0
        let s1 := { s with flagC := fC, flagV := fV }
        if fC ≠ 0 then
          .ok (s1.writeRegInternal dst (raw - 65536), raw)
        else
          .ok (s1.writeRegInternal dst raw, raw)
      else
        -- SUB/CMP
        let raw : Int := (val_a : Int) - (val_b : Int)
        let s_r := sign raw
        let fC : Nat := if val_a < val_b then 1 else 0
        let fV : Nat :=
          if (s_a ≠ 0 ∧ ¬s_b ≠ 0 ∧ ¬s_r ≠ 0) ∨ (¬s_a ≠ 0 ∧ s_b ≠ 0 ∧ s_r ≠ 0)
          then 1 else 0
        let s1 := { s with flagC := fC, flagV := fV }
        -- CMP (typ = 2) skips writing results
        if typ = 0x01 then
          if raw < 0 then
            .ok (s1.writeRegInternal dst (raw + 65536), raw)
          else
            .ok (s1.writeRegInternal dst raw, raw)
        else
          .ok (s1, raw)
    else if ¬code ≠ 0 ∧ typ < 3 then
      let raw : Nat :=
        if typ = 0x00 then val_a &&& val_b
        else if typ = 0x01 then val_a ||| val_b
        else val_a ^^^ val_b
      .ok (s.writeRegInternal dst (raw : Int), (raw : Int))
    else
      .error (.notImplemented ("Do A Class"))
  match branch with
  | .error e => .error e
  | .ok (s2, raw) =>
    .ok { s2 with flagZ := if raw = 0 then 1 else 0, flagS := sign raw }

/-- Handler `do_i_class(self, opcode)`: the immediate-load handler. -/
def do_i_class (s : BonelessSimulator) (opcode : Nat) :
    Except PyError BonelessSimulator :=
  let opc := (0x3800 &&& opcode) >>> 11
  let srcdst := (0x0700 &&& opcode) >>> 8
  let imm := 0x00FF &&& opcode
  let valE : Except PyError Nat :=
    if opc = 0x00 then .ok ((s.read_reg srcdst &&& 0xFF00) ||| imm)
    else if opc = 0x01 then .ok ((s.read_reg srcdst &&& 0x00FF) ||| imm)
    else .error (.notImplemented ("Do I Class"))
  match valE with
  | .error e => .error e
  | .ok val => .ok (s.writeRegInternal srcdst (val : Int))

/-- Method `stepi(self)`: fetch at `pc`, classify on the top 5 bits, dispatch, then
advance `pc` by one (the advance is skipped when the handler raises). -/
def stepi (s : BonelessSimulator) : Except PyError BonelessSimulator :=
  let opcode := s.mem.getD s.pc 0
  let op_class := (0xF800 &&& opcode) >>> 11
  if op_class = 0x00 ∨ op_class = 0x01 then
    match s.do_a_class opcode with
    | .error e => .error e
    | .ok s' => .ok { s' with pc := s'.pc + 1 }
  else if [0x08, 0x09, 0x0A, 0x0B, 0x0C, 0x0D, 0x0E, 0x0F].contains op_class then
    match s.do_i_class opcode with
    | .error e => .error e
    | .ok s' => .ok { s' with pc := s'.pc + 1 }
  else
    .error (.notImplemented ("Step Instruction"))

end BonelessSimulator

/-! ## Bit-fiddling helper lemmas

The source extracts instruction fields as `(mask & opcode) >> k`; these
lemmas restate each extraction as shift-and-mod arithmetic so that `omega`
can reason about the field values. -/

theorem and_mask_shr (j k op : Nat) :
    (((2 ^ j - 1) * 2 ^ k) &&& op) >>> k = (op >>> k) % 2 ^ j := by
  apply Nat.eq_of_testBit_eq
  intro i
  rw [← Nat.shiftLeft_eq (2 ^ j - 1) k]
  simp only [Nat.testBit_shiftRight, Nat.testBit_and, Nat.testBit_mod_two_pow,
    Nat.testBit_shiftLeft, Nat.testBit_two_pow_sub_one, Nat.add_sub_cancel_left]
  have h1 : k ≤ k + i := Nat.le_add_right k i
  simp [h1, Bool.and_comm, Bool.and_left_comm]

theorem extract_dst (op : Nat) : (0x0700 &&& op) >>> 8 = (op >>> 8) % 8 := by
  have h := and_mask_shr 3 8 op; norm_num at h; exact h

theorem extract_opa (op : Nat) : (0x00E0 &&& op) >>> 5 = (op >>> 5) % 8 := by
  have h := and_mask_shr 3 5 op; norm_num at h; exact h

theorem extract_opb (op : Nat) : (0x001C &&& op) >>> 2 = (op >>> 2) % 8 := by
  have h := and_mask_shr 3 2 op; norm_num at h; exact h

theorem extract_typ (op : Nat) : 0x0003 &&& op = op % 4 := by
  have h := and_mask_shr 2 0 op; norm_num at h; simpa using h

theorem extract_code (op : Nat) : (0x0800 &&& op) >>> 11 = (op >>> 11) % 2 := by
  have h := and_mask_shr 1 11 op; norm_num at h; exact h

theorem extract_opc (op : Nat) : (0x3800 &&& op) >>> 11 = (op >>> 11) % 8 := by
  have h := and_mask_shr 3 11 op; norm_num at h; exact h

theorem extract_cls (op : Nat) : (0xF800 &&& op) >>> 11 = (op >>> 11) % 32 := by
  have h := and_mask_shr 5 11 op; norm_num at h; exact h

theorem extract_imm (op : Nat) : 0x00FF &&& op = op % 256 := by
  have h := and_mask_shr 8 0 op; norm_num at h; simpa using h

/-- Bit 15 of a natural number, as arithmetic. -/
theorem testBit15_eq (n : Nat) : n.testBit 15 = decide (32768 ≤ n % 65536) := by
  rw [Nat.testBit_to_div_mod]
  by_cases h : 32768 ≤ n % 65536 <;> simp [h] <;> omega

theorem nat_and_two_pow_15 (n : Nat) :
    n &&& 32768 = if n.testBit 15 then 32768 else 0 := by
  have h32768 : (32768 : Nat) = 2 ^ 15 := by norm_num
  apply Nat.eq_of_testBit_eq
  intro i
  rw [Nat.testBit_and]
  by_cases hi : i = 15
  · subst hi
    by_cases h : n.testBit 15 <;> simp [h, h32768, Nat.testBit_two_pow]
  · have h2 : Nat.testBit 32768 i = false := by
      rw [h32768]; exact Nat.testBit_two_pow_of_ne (by omega)
    by_cases h : n.testBit 15 <;> simp [h, h2]

/-- Evaluating `sign` on a nonnegative value is bit 15 of its 16-bit residue. -/
theorem sign_natCast (n : Nat) :
    sign (n : Int) = if n % 65536 < 32768 then 0 else 1 := by
  have hl : Int.land (n : Int) 0x8000 = ((n &&& 0x8000 : Nat) : Int) := rfl
  rw [sign, hl]
  rw [show ((0x8000 : Nat) = 32768) from rfl, nat_and_two_pow_15, testBit15_eq]
  by_cases h : 32768 ≤ n % 65536
  · have h' : ¬(n % 65536 < 32768) := by omega
    simp [h, h']
  · have h' : n % 65536 < 32768 := by omega
    simp [h, h']

/-- Evaluating `sign` on a negative value: Python's two's-complement `&` sees the
complement of the magnitude's bits. -/
theorem sign_negSucc (m : Nat) :
    sign (Int.negSucc m) = if m.testBit 15 then 0 else 1 := by
  have hl : Int.land (Int.negSucc m) 0x8000 = ((Nat.ldiff 32768 m : Nat) : Int) := rfl
  rw [sign, hl]
  have hld : Nat.ldiff 32768 m = if m.testBit 15 then 0 else 32768 := by
    have h32768 : (32768 : Nat) = 2 ^ 15 := by norm_num
    apply Nat.eq_of_testBit_eq
    intro i
    rw [Nat.testBit_ldiff]
    by_cases hi : i = 15
    · subst hi
      by_cases h : m.testBit 15 <;> simp [h, h32768, Nat.testBit_two_pow]
    · have h2 : Nat.testBit 32768 i = false := by
        rw [h32768]; exact Nat.testBit_two_pow_of_ne (by omega)
      by_cases h : m.testBit 15 <;> simp [h, h2]
  rw [hld]
  by_cases h : m.testBit 15 <;> simp [h]

/-- Evaluating `sign` on the SUB temporary `val_a - val_b`, as arithmetic on the
wrapped 16-bit difference. -/
theorem sign_sub (a b : Nat) (ha : a < 65536) (hb : b < 65536) :
    sign ((a : Int) - (b : Int)) =
      if (a + 65536 - b) % 65536 < 32768 then 0 else 1 := by
  by_cases hab : b ≤ a
  · have hcast : (a : Int) - (b : Int) = ((a - b : Nat) : Int) := by omega
    rw [hcast, sign_natCast]
    have : (a - b) % 65536 = (a + 65536 - b) % 65536 := by omega
    rw [this]
  · have hcast : (a : Int) - (b : Int) = Int.negSucc (b - a - 1) := by
      rw [Int.negSucc_eq]; omega
    rw [hcast, sign_negSucc, testBit15_eq]
    by_cases h : 32768 ≤ (b - a - 1) % 65536
    · have h' : (a + 65536 - b) % 65536 < 32768 := by omega
      simp [h, h']
    · have h' : ¬((a + 65536 - b) % 65536 < 32768) := by omega
      simp [h, h']

/-- Evaluating `sign` on the ADD temporary `val_a + val_b`. -/
theorem sign_add (a b : Nat) :
    sign ((a : Int) + (b : Int)) =
      if (a + b) % 65536 < 32768 then 0 else 1 := by
  have hcast : (a : Int) + (b : Int) = ((a + b : Nat) : Int) := by push_cast; ring
  rw [hcast, sign_natCast]

/-- Full characterization of an ADD execution (`code = 1`, `typ = 0`),
with flags and the written cell expressed arithmetically. -/
theorem add_char (s : BonelessSimulator) (op a b : Nat)
    (hcode : (op >>> 11) % 2 = 1) (htyp : op % 4 = 0)
    (ha : s.read_reg ((op >>> 5) % 8) = a)
    (hb : s.read_reg ((op >>> 2) % 8) = b)
    (ha16 : a < 65536) (hb16 : b < 65536) :
    s.do_a_class op = .ok { s with
      flagZ := if a + b = 0 then 1 else 0,
      flagS := if (a + b) % 65536 < 32768 then 0 else 1,
      flagC := if 65536 ≤ a + b then 1 else 0,
      flagV := if (32768 ≤ a ∧ 32768 ≤ b ∧ (a + b) % 65536 < 32768) ∨
                  (a < 32768 ∧ b < 32768 ∧ 32768 ≤ (a + b) % 65536)
               then 1 else 0,
      mem := s.mem.set (s.window + (op >>> 8) % 8) ((a + b) % 65536) } := by
  have hiffC : ((65535 : Int) < (a : Int) + (b : Int)) ↔ 65536 ≤ a + b := by omega
  have hZ : ((a : Int) + (b : Int) = 0) ↔ a + b = 0 := by omega
  have ha' : a % 65536 = a := Nat.mod_eq_of_lt ha16
  have hb' : b % 65536 = b := Nat.mod_eq_of_lt hb16
  simp only [BonelessSimulator.do_a_class, extract_dst, extract_opa, extract_opb,
    extract_typ, extract_code, ha, hb, hcode, htyp, sign_natCast, sign_add,
    BonelessSimulator.writeRegInternal, BonelessSimulator.reg_loc, gt_iff_lt,
    hiffC, hZ, ha', hb']
  by_cases hC : 65536 ≤ a + b
  · have hv : ((a : Int) + (b : Int) - 65536).toNat = (a + b) % 65536 := by omega
    by_cases hA : a < 32768 <;> by_cases hB : b < 32768 <;>
      by_cases hS : (a + b) % 65536 < 32768 <;>
      simp [hC, hv, hA, hB, hS, sign_add, sign_natCast, hZ, ha', hb'] <;>
      (try (split_ifs <;> omega))
  · have hv : ((a : Int) + (b : Int)).toNat = (a + b) % 65536 := by omega
    by_cases hA : a < 32768 <;> by_cases hB : b < 32768 <;>
      by_cases hS : (a + b) % 65536 < 32768 <;>
      simp [hC, hv, hA, hB, hS, sign_add, sign_natCast, hZ, ha', hb'] <;>
      (try (split_ifs <;> omega))

/-- Full characterization of a SUB execution (`code = 1`, `typ = 1`). -/
theorem sub_char (s : BonelessSimulator) (op a b : Nat)
    (hcode : (op >>> 11) % 2 = 1) (htyp : op % 4 = 1)
    (ha : s.read_reg ((op >>> 5) % 8) = a)
    (hb : s.read_reg ((op >>> 2) % 8) = b)
    (ha16 : a < 65536) (hb16 : b < 65536) :
    s.do_a_class op = .ok { s with
      flagZ := if a = b then 1 else 0,
      flagS := if (a + 65536 - b) % 65536 < 32768 then 0 else 1,
      flagC := if a < b then 1 else 0,
      flagV := if (32768 ≤ a ∧ b < 32768 ∧ (a + 65536 - b) % 65536 < 32768) ∨
                  (a < 32768 ∧ 32768 ≤ b ∧ 32768 ≤ (a + 65536 - b) % 65536)
               then 1 else 0,
      mem := s.mem.set (s.window + (op >>> 8) % 8) ((a + 65536 - b) % 65536) } := by
  have hneg : ((a : Int) - (b : Int) < 0) ↔ a < b := by omega
  have hZ : ((a : Int) - (b : Int) = 0) ↔ a = b := by omega
  have ha' : a % 65536 = a := Nat.mod_eq_of_lt ha16
  have hb' : b % 65536 = b := Nat.mod_eq_of_lt hb16
  simp only [BonelessSimulator.do_a_class, extract_dst, extract_opa, extract_opb,
    extract_typ, extract_code, ha, hb, hcode, htyp, sign_natCast,
    sign_sub a b ha16 hb16, BonelessSimulator.writeRegInternal,
    BonelessSimulator.reg_loc, hneg, hZ, ha', hb']
  by_cases hC : a < b
  · have hv : ((a : Int) - (b : Int) + 65536).toNat = (a + 65536 - b) % 65536 := by
      omega
    by_cases hA : a < 32768 <;> by_cases hB : b < 32768 <;>
      by_cases hS : (a + 65536 - b) % 65536 < 32768 <;>
      simp [hC, hv, hA, hB, hS, sign_sub a b ha16 hb16, sign_natCast, hZ, ha', hb'] <;>
      (try (split_ifs <;> omega))
  · have hv : ((a : Int) - (b : Int)).toNat = (a + 65536 - b) % 65536 := by omega
    by_cases hA : a < 32768 <;> by_cases hB : b < 32768 <;>
      by_cases hS : (a + 65536 - b) % 65536 < 32768 <;>
      simp [hC, hv, hA, hB, hS, sign_sub a b ha16 hb16, sign_natCast, hZ, ha', hb'] <;>
      (try (split_ifs <;> omega))

/-- Full characterization of a CMP execution (`code = 1`, `typ = 2`):
flags as for SUB, and memory untouched. -/
theorem cmp_char (s : BonelessSimulator) (op a b : Nat)
    (hcode : (op >>> 11) % 2 = 1) (htyp : op % 4 = 2)
    (ha : s.read_reg ((op >>> 5) % 8) = a)
    (hb : s.read_reg ((op >>> 2) % 8) = b)
    (ha16 : a < 65536) (hb16 : b < 65536) :
    s.do_a_class op = .ok { s with
      flagZ := if a = b then 1 else 0,
      flagS := if (a + 65536 - b) % 65536 < 32768 then 0 else 1,
      flagC := if a < b then 1 else 0,
      flagV := if (32768 ≤ a ∧ b < 32768 ∧ (a + 65536 - b) % 65536 < 32768) ∨
                  (a < 32768 ∧ 32768 ≤ b ∧ 32768 ≤ (a + 65536 - b) % 65536)
               then 1 else 0 } := by
  have hZ : ((a : Int) - (b : Int) = 0) ↔ a = b := by omega
  have ha' : a % 65536 = a := Nat.mod_eq_of_lt ha16
  have hb' : b % 65536 = b := Nat.mod_eq_of_lt hb16
  simp only [BonelessSimulator.do_a_class, extract_dst, extract_opa, extract_opb,
    extract_typ, extract_code, ha, hb, hcode, htyp, sign_natCast,
    sign_sub a b ha16 hb16, BonelessSimulator.writeRegInternal,
    BonelessSimulator.reg_loc, hZ, ha', hb']
  by_cases hA : a < 32768 <;> by_cases hB : b < 32768 <;>
    by_cases hS : (a + 65536 - b) % 65536 < 32768 <;>
    simp [hA, hB, hS, sign_sub a b ha16 hb16, sign_natCast, hZ, ha', hb'] <;>
    (try (split_ifs <;> omega))

/-- Full characterization of a logic execution (`code = 0`, `typ < 3`):
the bitwise result is written, C and V keep their previous values. -/
theorem logic_char (s : BonelessSimulator) (op a b : Nat)
    (hcode : (op >>> 11) % 2 = 0) (htyp : op % 4 < 3)
    (ha : s.read_reg ((op >>> 5) % 8) = a)
    (hb : s.read_reg ((op >>> 2) % 8) = b) :
    s.do_a_class op = .ok { s with
      flagZ := if (if op % 4 = 0 then a &&& b
                   else if op % 4 = 1 then a ||| b else a ^^^ b) = 0 then 1 else 0,
      flagS := if (if op % 4 = 0 then a &&& b
                   else if op % 4 = 1 then a ||| b else a ^^^ b) % 65536 < 32768
               then 0 else 1,
      mem := s.mem.set (s.window + (op >>> 8) % 8)
        (if op % 4 = 0 then a &&& b
         else if op % 4 = 1 then a ||| b else a ^^^ b) } := by
  simp only [BonelessSimulator.do_a_class, extract_dst, extract_opa, extract_opb,
    extract_typ, extract_code, ha, hb, hcode, htyp, sign_natCast,
    BonelessSimulator.writeRegInternal, BonelessSimulator.reg_loc]
  by_cases ht0 : op % 4 = 0 <;> by_cases ht1 : op % 4 = 1 <;>
    simp [ht0, ht1, htyp, sign_natCast]

/-- Encoding `typ = 3` in either A-class group falls through to the raise. -/
theorem a_err_char (s : BonelessSimulator) (op : Nat) (htyp : op % 4 = 3) :
    s.do_a_class op = .error (.notImplemented ("Do A Class")) := by
  simp only [BonelessSimulator.do_a_class, extract_typ, extract_code, htyp]
  simp

/-- I-class `opc = 0`: write `(read & 0xFF00) | imm` to `srcdst`. -/
theorem i_low_char (s : BonelessSimulator) (op : Nat)
    (hopc : (op >>> 11) % 8 = 0) :
    s.do_i_class op = .ok { s with
      mem := s.mem.set (s.window + (op >>> 8) % 8)
        ((s.read_reg ((op >>> 8) % 8) &&& 0xFF00) ||| op % 256) } := by
  simp only [BonelessSimulator.do_i_class, extract_opc, extract_dst, extract_imm,
    hopc, BonelessSimulator.writeRegInternal, BonelessSimulator.reg_loc]
  simp

/-- I-class `opc = 1`: write `(read & 0x00FF) | imm` to `srcdst`. -/
theorem i_high_char (s : BonelessSimulator) (op : Nat)
    (hopc : (op >>> 11) % 8 = 1) :
    s.do_i_class op = .ok { s with
      mem := s.mem.set (s.window + (op >>> 8) % 8)
        ((s.read_reg ((op >>> 8) % 8) &&& 0x00FF) ||| op % 256) } := by
  simp only [BonelessSimulator.do_i_class, extract_opc, extract_dst, extract_imm,
    hopc, BonelessSimulator.writeRegInternal, BonelessSimulator.reg_loc]
  simp

/-- I-class with any other `opc` raises. -/
theorem i_err_char (s : BonelessSimulator) (op : Nat)
    (hopc : 2 ≤ (op >>> 11) % 8) :
    s.do_i_class op = .error (.notImplemented ("Do I Class")) := by
  have h0 : ¬((op >>> 11) % 8 = 0) := by omega
  have h1 : ¬((op >>> 11) % 8 = 1) := by omega
  simp only [BonelessSimulator.do_i_class, extract_opc, h0, h1]
  simp

/-- Reading back a just-written in-bounds cell. -/
theorem getD_set_self (l : List Nat) (i v : Nat) (h : i < l.length) :
    (l.set i v).getD i 0 = v := by
  simp [List.getD_eq_getElem?_getD, List.getElem?_set, h]

/-- Any register read is a memory cell (or the out-of-range default 0), so it
inherits the 16-bit memory invariant. -/
theorem read_reg_lt (s : BonelessSimulator) (hm : ∀ v ∈ s.mem, v < 65536)
    (r : Nat) : s.read_reg r < 65536 := by
  rw [BonelessSimulator.read_reg, List.getD_eq_getElem?_getD]
  rcases h : s.mem[s.reg_loc r]? with _ | v
  · simp
  · simpa using hm v (List.getElem?_mem h)

/-- Setting an in-range value preserves the 16-bit memory invariant. -/
theorem mem_set_lt (l : List Nat) (i v : Nat) (hm : ∀ x ∈ l, x < 65536)
    (hv : v < 65536) : ∀ x ∈ l.set i v, x < 65536 := fun x hx =>
  (List.mem_or_eq_of_mem_set hx).elim (hm x) (fun h => h ▸ hv)

/-- The three bitwise logic results stay within 16 bits. -/
theorem logic_lt (a b t : Nat) (ha : a < 65536) (hb : b < 65536) :
    (if t = 0 then a &&& b else if t = 1 then a ||| b else a ^^^ b) < 65536 := by
  have h16 : (65536 : Nat) = 2 ^ 16 := by norm_num
  split_ifs
  · exact Nat.lt_of_le_of_lt Nat.and_le_left ha
  · rw [h16] at ha hb ⊢; exact Nat.or_lt_two_pow ha hb
  · rw [h16] at ha hb ⊢; exact Nat.xor_lt_two_pow ha hb

/-- The A-class handler preserves the 16-bit memory invariant. -/
theorem do_a_class_mem_lt (s s' : BonelessSimulator) (op : Nat)
    (hm : ∀ v ∈ s.mem, v < 65536) (h : s.do_a_class op = .ok s') :
    ∀ v ∈ s'.mem, v < 65536 := by
  have ha16 := read_reg_lt s hm ((op >>> 5) % 8)
  have hb16 := read_reg_lt s hm ((op >>> 2) % 8)
  have hcode : (op >>> 11) % 2 = 0 ∨ (op >>> 11) % 2 = 1 :=
    Nat.mod_two_eq_zero_or_one _
  have htyp : op % 4 = 0 ∨ op % 4 = 1 ∨ op % 4 = 2 ∨ op % 4 = 3 := by omega
  rcases htyp with ht | ht | ht | ht
  · rcases hcode with hc | hc
    · rw [logic_char s op _ _ hc (by omega) rfl rfl] at h
      cases h
      exact mem_set_lt _ _ _ hm (by simpa [ht] using logic_lt _ _ (op % 4) ha16 hb16)
    · rw [add_char s op _ _ hc ht rfl rfl ha16 hb16] at h
      cases h
      exact mem_set_lt _ _ _ hm (by omega)
  · rcases hcode with hc | hc
    · rw [logic_char s op _ _ hc (by omega) rfl rfl] at h
      cases h
      exact mem_set_lt _ _ _ hm (by simpa [ht] using logic_lt _ _ (op % 4) ha16 hb16)
    · rw [sub_char s op _ _ hc ht rfl rfl ha16 hb16] at h
      cases h
      exact mem_set_lt _ _ _ hm (by omega)
  · rcases hcode with hc | hc
    · rw [logic_char s op _ _ hc (by omega) rfl rfl] at h
      cases h
      exact mem_set_lt _ _ _ hm (by simpa [ht] using logic_lt _ _ (op % 4) ha16 hb16)
    · rw [cmp_char s op _ _ hc ht rfl rfl ha16 hb16] at h
      cases h
      exact hm
  · rw [a_err_char s op ht] at h
    cases h

/-- The Sign flag (`if testBit 15 then 1 else 0`) in the arithmetic form the
handler computes it in. -/
theorem flagS_testBit (n : Nat) :
    (if n.testBit 15 then (1 : Nat) else 0) = if n % 65536 < 32768 then 0 else 1 := by
  rw [testBit15_eq]
  by_cases h : 32768 ≤ n % 65536
  · have h' : ¬(n % 65536 < 32768) := by omega
    simp [h, h']
  · have h' : n % 65536 < 32768 := by omega
    simp [h, h']

/-- The I-class handler preserves the 16-bit memory invariant. -/
theorem do_i_class_mem_lt (s s' : BonelessSimulator) (op : Nat)
    (hm : ∀ v ∈ s.mem, v < 65536) (h : s.do_i_class op = .ok s') :
    ∀ v ∈ s'.mem, v < 65536 := by
  have hr16 := read_reg_lt s hm ((op >>> 8) % 8)
  have h16 : (65536 : Nat) = 2 ^ 16 := by norm_num
  have himm : op % 256 < 65536 := by omega
  have hopc : (op >>> 11) % 8 = 0 ∨ (op >>> 11) % 8 = 1 ∨ 2 ≤ (op >>> 11) % 8 := by
    omega
  rcases hopc with hc | hc | hc
  · rw [i_low_char s op hc] at h
    cases h
    refine mem_set_lt _ _ _ hm ?_
    rw [h16] at hr16 himm ⊢
    exact Nat.or_lt_two_pow (Nat.lt_of_le_of_lt Nat.and_le_left hr16) himm
  · rw [i_high_char s op hc] at h
    cases h
    refine mem_set_lt _ _ _ hm ?_
    rw [h16] at hr16 himm ⊢
    exact Nat.or_lt_two_pow (Nat.lt_of_le_of_lt Nat.and_le_left hr16) himm
  · rw [i_err_char s op hc] at h
    cases h

/-! ## Concrete states for the witness theorems -/

/-- A small concrete simulator state: window 0, registers
`r0 = 0, r1 = 7, r2 = 9, r3 = 0x8000, r4 = 0x8001, r5 = 0xFFFF, r6 = 0x00CD,
r7 = 3`, prior flags `C = V = 1`, and an ADD opcode at `pc = 16`. -/
def demoSim : BonelessSimulator :=
  { sim_active := false, window := 0, pc := 16,
    flagZ := 0, flagS := 0, flagC := 1, flagV := 1,
    mem := [0, 7, 9, 0x8000, 0x8001, 0xFFFF, 0x00CD, 3,
            0, 0, 0, 0, 0, 0, 0, 0,
            0x0828, 0, 0, 0],
    io_callback := none }

/-! ## The claims -/

/-- Claim C1. For register operand values `a, b < 65536`, an A-class ADD
(`code = 1`, `typ = 0`) writes `(a + b) % 65536` to the destination
register, sets Carry to 1 iff `a + b ≥ 65536`, and sets Overflow to 1 iff
the operands' bit 15 agree and differ from bit 15 of the raw sum.  (The
resulting Z and S flags are also pinned, so the equation determines the
whole post-state; the final conjunct reads the destination register back
from the written memory.) -/
theorem claim_C1 (s : BonelessSimulator) (op a b : Nat)
    (hcode : (0x0800 &&& op) >>> 11 = 1) (htyp : 0x0003 &&& op = 0)
    (ha : s.read_reg ((0x00E0 &&& op) >>> 5) = a)
    (hb : s.read_reg ((0x001C &&& op) >>> 2) = b)
    (ha16 : a < 65536) (hb16 : b < 65536)
    (hwin : s.window + 16 ≤ s.mem.length) :
    s.do_a_class op = .ok { s with
      flagZ := if a + b = 0 then 1 else 0,
      flagS := if (a + b).testBit 15 then 1 else 0,
      flagC := if 65536 ≤ a + b then 1 else 0,
      flagV := if a.testBit 15 = b.testBit 15 ∧ a.testBit 15 ≠ (a + b).testBit 15
               then 1 else 0,
      mem := s.mem.set (s.reg_loc ((0x0700 &&& op) >>> 8)) ((a + b) % 65536) } ∧
    ({ s with mem := s.mem.set (s.reg_loc ((0x0700 &&& op) >>> 8)) ((a + b) % 65536)
     } : BonelessSimulator).read_reg ((0x0700 &&& op) >>> 8) = (a + b) % 65536 := by
  rw [extract_code] at hcode
  rw [extract_typ] at htyp
  rw [extract_opa] at ha
  rw [extract_opb] at hb
  have ha' : a % 65536 = a := Nat.mod_eq_of_lt ha16
  have hb' : b % 65536 = b := Nat.mod_eq_of_lt hb16
  have hV : (if a.testBit 15 = b.testBit 15 ∧ a.testBit 15 ≠ (a + b).testBit 15
             then (1 : Nat) else 0) =
      if (32768 ≤ a ∧ 32768 ≤ b ∧ (a + b) % 65536 < 32768) ∨
         (a < 32768 ∧ b < 32768 ∧ 32768 ≤ (a + b) % 65536) then 1 else 0 := by
    rw [testBit15_eq, testBit15_eq, testBit15_eq, ha', hb']
    refine if_congr ?_ rfl rfl
    rw [decide_eq_decide, ne_eq, decide_eq_decide]
    omega
  constructor
  · rw [flagS_testBit, hV, BonelessSimulator.reg_loc, extract_dst]
    exact add_char s op a b hcode htyp ha hb ha16 hb16
  · rw [BonelessSimulator.read_reg, BonelessSimulator.reg_loc, extract_dst]
    exact getD_set_self _ _ _ (by have := Nat.mod_lt (op >>> 8) (by omega : 0 < 8); omega)

/-- Witness for C1: `ADD r0, r1, r2` (opcode `0x0828`) on `demoSim`
(`r1 = 7`, `r2 = 9`). -/
theorem claim_C1_witness :
    ((0x0800 &&& 0x0828) >>> 11 = 1 ∧ 0x0003 &&& 0x0828 = 0 ∧
     demoSim.read_reg ((0x00E0 &&& 0x0828) >>> 5) = 7 ∧
     demoSim.read_reg ((0x001C &&& 0x0828) >>> 2) = 9 ∧
     demoSim.window + 16 ≤ demoSim.mem.length) ∧
    (demoSim.do_a_class 0x0828 = .ok { demoSim with
      flagZ := if 7 + 9 = 0 then 1 else 0,
      flagS := if (7 + 9).testBit 15 then 1 else 0,
      flagC := if 65536 ≤ 7 + 9 then 1 else 0,
      flagV := if Nat.testBit 7 15 = Nat.testBit 9 15 ∧
                  Nat.testBit 7 15 ≠ (7 + 9).testBit 15 then 1 else 0,
      mem := demoSim.mem.set (demoSim.reg_loc ((0x0700 &&& 0x0828) >>> 8))
        ((7 + 9) % 65536) } ∧
    ({ demoSim with
      mem := demoSim.mem.set (demoSim.reg_loc ((0x0700 &&& 0x0828) >>> 8))
        ((7 + 9) % 65536) } : BonelessSimulator).read_reg
        ((0x0700 &&& 0x0828) >>> 8) = (7 + 9) % 65536) :=
  ⟨⟨by decide, by decide, by decide, by decide, by decide⟩,
   claim_C1 demoSim 0x0828 7 9 (by decide) (by decide) (by decide) (by decide)
     (by decide) (by decide) (by decide)⟩

/-- Claim C2. For register operand values `a, b < 65536`, A-class SUB
(`typ = 1`) and CMP (`typ = 2`) both set Carry to 1 iff `a < b` and set
Overflow by the signed-subtraction rule
`(sign a ∧ ¬sign b ∧ ¬sign raw) ∨ (¬sign a ∧ sign b ∧ sign raw)` (bit 15 of
`a + 65536 - b` is bit 15 of the two's-complement difference `a - b`);
SUB writes `(a - b) mod 65536 = (a + 65536 - b) % 65536` to the destination
register and CMP leaves memory — in particular the destination register —
untouched. -/
theorem claim_C2 (s : BonelessSimulator) (op a b : Nat)
    (hcode : (0x0800 &&& op) >>> 11 = 1)
    (htyp : 0x0003 &&& op = 1 ∨ 0x0003 &&& op = 2)
    (ha : s.read_reg ((0x00E0 &&& op) >>> 5) = a)
    (hb : s.read_reg ((0x001C &&& op) >>> 2) = b)
    (ha16 : a < 65536) (hb16 : b < 65536)
    (hwin : s.window + 16 ≤ s.mem.length) :
    s.do_a_class op = .ok { s with
      flagZ := if a = b then 1 else 0,
      flagS := if (a + 65536 - b).testBit 15 then 1 else 0,
      flagC := if a < b then 1 else 0,
      flagV := if (a.testBit 15 ∧ ¬b.testBit 15 ∧ ¬(a + 65536 - b).testBit 15) ∨
                  (¬a.testBit 15 ∧ b.testBit 15 ∧ (a + 65536 - b).testBit 15)
               then 1 else 0,
      mem := if 0x0003 &&& op = 1
             then s.mem.set (s.reg_loc ((0x0700 &&& op) >>> 8))
               ((a + 65536 - b) % 65536)
             else s.mem } ∧
    (0x0003 &&& op = 1 →
      ({ s with
          mem := s.mem.set (s.reg_loc ((0x0700 &&& op) >>> 8))
            ((a + 65536 - b) % 65536) } : BonelessSimulator).read_reg
        ((0x0700 &&& op) >>> 8) = (a + 65536 - b) % 65536) := by
  rw [extract_code] at hcode
  rw [extract_typ] at htyp
  rw [extract_opa] at ha
  rw [extract_opb] at hb
  have ha' : a % 65536 = a := Nat.mod_eq_of_lt ha16
  have hb' : b % 65536 = b := Nat.mod_eq_of_lt hb16
  have hV : (if (a.testBit 15 ∧ ¬b.testBit 15 ∧ ¬(a + 65536 - b).testBit 15) ∨
                (¬a.testBit 15 ∧ b.testBit 15 ∧ (a + 65536 - b).testBit 15)
             then (1 : Nat) else 0) =
      if (32768 ≤ a ∧ b < 32768 ∧ (a + 65536 - b) % 65536 < 32768) ∨
         (a < 32768 ∧ 32768 ≤ b ∧ 32768 ≤ (a + 65536 - b) % 65536) then 1 else 0 := by
    rw [testBit15_eq, testBit15_eq, testBit15_eq, ha', hb']
    refine if_congr ?_ rfl rfl
    simp only [decide_eq_true_eq, not_decide_eq_true, ne_eq, decide_eq_decide]
    omega
  have hS : (if (a + 65536 - b).testBit 15 then (1 : Nat) else 0) =
      if (a + 65536 - b) % 65536 < 32768 then 0 else 1 := flagS_testBit _
  refine ⟨?_, fun _ => ?_⟩
  · rw [hS, hV, BonelessSimulator.reg_loc, extract_dst, extract_typ]
    rcases htyp with ht | ht
    · rw [if_pos ht]
      exact sub_char s op a b hcode ht ha hb ha16 hb16
    · have hne : ¬(op % 4 = 1) := by omega
      rw [if_neg hne]
      exact cmp_char s op a b hcode ht ha hb ha16 hb16
  · rw [BonelessSimulator.read_reg, BonelessSimulator.reg_loc, extract_dst]
    exact getD_set_self _ _ _ (by have := Nat.mod_lt (op >>> 8) (by omega : 0 < 8); omega)

/-- Witness for C2: `SUB r0, r1, r2` (opcode `0x0829`) on `demoSim`
(`r1 = 7`, `r2 = 9`: a borrow). -/
theorem claim_C2_witness :
    ((0x0800 &&& 0x0829) >>> 11 = 1 ∧
     (0x0003 &&& 0x0829 = 1 ∨ 0x0003 &&& 0x0829 = 2) ∧
     demoSim.read_reg ((0x00E0 &&& 0x0829) >>> 5) = 7 ∧
     demoSim.read_reg ((0x001C &&& 0x0829) >>> 2) = 9) ∧
    (demoSim.do_a_class 0x0829 = .ok { demoSim with
      flagZ := if 7 = 9 then 1 else 0,
      flagS := if (7 + 65536 - 9).testBit 15 then 1 else 0,
      flagC := if 7 < 9 then 1 else 0,
      flagV := if (Nat.testBit 7 15 ∧ ¬Nat.testBit 9 15 ∧
                    ¬(7 + 65536 - 9).testBit 15) ∨
                  (¬Nat.testBit 7 15 ∧ Nat.testBit 9 15 ∧
                    (7 + 65536 - 9).testBit 15) then 1 else 0,
      mem := if 0x0003 &&& 0x0829 = 1
             then demoSim.mem.set (demoSim.reg_loc ((0x0700 &&& 0x0829) >>> 8))
               ((7 + 65536 - 9) % 65536)
             else demoSim.mem } ∧
    (0x0003 &&& 0x0829 = 1 →
      ({ demoSim with
        mem := demoSim.mem.set (demoSim.reg_loc ((0x0700 &&& 0x0829) >>> 8))
          ((7 + 65536 - 9) % 65536) } : BonelessSimulator).read_reg
        ((0x0700 &&& 0x0829) >>> 8) = (7 + 65536 - 9) % 65536)) :=
  ⟨⟨by decide, by decide, by decide, by decide⟩,
   claim_C2 demoSim 0x0829 7 9 (by decide) (by decide) (by decide) (by decide)
     (by decide) (by decide) (by decide)⟩

/-- Claim C3. A-class logic instructions AND/OR/XOR (`code = 0`,
`typ ∈ {0,1,2}`) write the bitwise result to the destination register, do
not touch the Carry and Overflow flags (absent from the record update, they
keep `s.flagC`/`s.flagV`), and set Zero and Sign from the logic result. -/
theorem claim_C3 (s : BonelessSimulator) (op a b : Nat)
    (hcode : (0x0800 &&& op) >>> 11 = 0) (htyp : 0x0003 &&& op < 3)
    (ha : s.read_reg ((0x00E0 &&& op) >>> 5) = a)
    (hb : s.read_reg ((0x001C &&& op) >>> 2) = b)
    (hwin : s.window + 16 ≤ s.mem.length) :
    s.do_a_class op = .ok { s with
      flagZ := if (if 0x0003 &&& op = 0 then a &&& b
                   else if 0x0003 &&& op = 1 then a ||| b else a ^^^ b) = 0
               then 1 else 0,
      flagS := if (if 0x0003 &&& op = 0 then a &&& b
                   else if 0x0003 &&& op = 1 then a ||| b else a ^^^ b).testBit 15
               then 1 else 0,
      mem := s.mem.set (s.reg_loc ((0x0700 &&& op) >>> 8))
        (if 0x0003 &&& op = 0 then a &&& b
         else if 0x0003 &&& op = 1 then a ||| b else a ^^^ b) } ∧
    ({ s with
        mem := s.mem.set (s.reg_loc ((0x0700 &&& op) >>> 8))
          (if 0x0003 &&& op = 0 then a &&& b
           else if 0x0003 &&& op = 1 then a ||| b else a ^^^ b)
     } : BonelessSimulator).read_reg ((0x0700 &&& op) >>> 8) =
      (if 0x0003 &&& op = 0 then a &&& b
       else if 0x0003 &&& op = 1 then a ||| b else a ^^^ b) := by
  rw [extract_code] at hcode
  rw [extract_typ] at htyp
  rw [extract_opa] at ha
  rw [extract_opb] at hb
  constructor
  · rw [flagS_testBit, BonelessSimulator.reg_loc, extract_dst, extract_typ]
    exact logic_char s op a b hcode htyp ha hb
  · rw [BonelessSimulator.read_reg, BonelessSimulator.reg_loc, extract_dst]
    exact getD_set_self _ _ _ (by have := Nat.mod_lt (op >>> 8) (by omega : 0 < 8); omega)

/-- Witness for C3: `XOR r0, r4, r5` (opcode `0x0096`, `code = 0`,
`typ = 2`) on `demoSim`, whose prior `C = V = 1` are preserved. -/
theorem claim_C3_witness :
    ((0x0800 &&& 0x0096) >>> 11 = 0 ∧ 0x0003 &&& 0x0096 < 3 ∧
     demoSim.read_reg ((0x00E0 &&& 0x0096) >>> 5) = 0x8001 ∧
     demoSim.read_reg ((0x001C &&& 0x0096) >>> 2) = 0xFFFF) ∧
    (demoSim.do_a_class 0x0096 = .ok { demoSim with
      flagZ := if (if 0x0003 &&& 0x0096 = 0 then 0x8001 &&& 0xFFFF
                   else if 0x0003 &&& 0x0096 = 1 then 0x8001 ||| 0xFFFF
                   else 0x8001 ^^^ 0xFFFF) = 0 then 1 else 0,
      flagS := if (if 0x0003 &&& 0x0096 = 0 then 0x8001 &&& 0xFFFF
                   else if 0x0003 &&& 0x0096 = 1 then 0x8001 ||| 0xFFFF
                   else 0x8001 ^^^ 0xFFFF).testBit 15 then 1 else 0,
      mem := demoSim.mem.set (demoSim.reg_loc ((0x0700 &&& 0x0096) >>> 8))
        (if 0x0003 &&& 0x0096 = 0 then 0x8001 &&& 0xFFFF
         else if 0x0003 &&& 0x0096 = 1 then 0x8001 ||| 0xFFFF
         else 0x8001 ^^^ 0xFFFF) } ∧
    ({ demoSim with
      mem := demoSim.mem.set (demoSim.reg_loc ((0x0700 &&& 0x0096) >>> 8))
        (if 0x0003 &&& 0x0096 = 0 then 0x8001 &&& 0xFFFF
         else if 0x0003 &&& 0x0096 = 1 then 0x8001 ||| 0xFFFF
         else 0x8001 ^^^ 0xFFFF) } : BonelessSimulator).read_reg
        ((0x0700 &&& 0x0096) >>> 8) =
      (if 0x0003 &&& 0x0096 = 0 then 0x8001 &&& 0xFFFF
       else if 0x0003 &&& 0x0096 = 1 then 0x8001 ||| 0xFFFF
       else 0x8001 ^^^ 0xFFFF)) :=
  ⟨⟨by decide, by decide, by decide, by decide⟩,
   claim_C3 demoSim 0x0096 0x8001 0xFFFF (by decide) (by decide) (by decide)
     (by decide) (by decide)⟩

/-- Claim C4, counterexample.  The claim says the Zero flag is true iff the
value finally written to the destination register is 0, "in particular ...
for ADD executions whose raw sum wraps past 65535".  Take `ADD r0, r3, r3`
(opcode `0x086C`) on `demoSim` with `r3 = 0x8000`: the raw sum is exactly
65536, the wrapped value written to `r0` is 0 — and the handler computes
`Z` from the pre-wrap raw, so `Z = 0`.  (The post-state happens to equal
`demoSim` itself: `C`/`V` were already 1 and `r0` already 0.) -/
theorem claim_C4_cex :
    demoSim.do_a_class 0x086C = .ok demoSim ∧
    demoSim.read_reg ((0x0700 &&& 0x086C) >>> 8) = 0 ∧
    demoSim.flagZ = 0 := by decide

/-- Claim C4, amended.  After every successful A-class execution the Zero
flag is 1 iff the *pre-wrap* raw result is zero (for ADD: `a + b = 0`,
which differs from "final value is zero" exactly when `a + b = 65536`;
for SUB/CMP: `a = b`; for logic ops the raw result is the final value),
and the Sign flag does equal bit 15 of the final (wrapped) result value —
for CMP, of the value that would have been written. -/
theorem claim_C4_amended (s s' : BonelessSimulator) (op a b : Nat)
    (ha : s.read_reg ((0x00E0 &&& op) >>> 5) = a)
    (hb : s.read_reg ((0x001C &&& op) >>> 2) = b)
    (ha16 : a < 65536) (hb16 : b < 65536)
    (hok : s.do_a_class op = .ok s') :
    (s'.flagZ = 1 ↔
      (if (0x0800 &&& op) >>> 11 = 1 then
        (if 0x0003 &&& op = 0 then a + b = 0 else a = b)
       else (if 0x0003 &&& op = 0 then a &&& b
             else if 0x0003 &&& op = 1 then a ||| b else a ^^^ b) = 0)) ∧
    s'.flagS = (if (if (0x0800 &&& op) >>> 11 = 1 then
                     (if 0x0003 &&& op = 0 then (a + b) % 65536
                      else (a + 65536 - b) % 65536)
                   else (if 0x0003 &&& op = 0 then a &&& b
                         else if 0x0003 &&& op = 1 then a ||| b
                         else a ^^^ b)).testBit 15
                then 1 else 0) := by
  rw [extract_opa] at ha
  rw [extract_opb] at hb
  simp only [extract_code, extract_typ]
  have hmm : (a + b) % 65536 % 65536 = (a + b) % 65536 := Nat.mod_mod_of_dvd _ dvd_rfl
  have hmm2 : (a + 65536 - b) % 65536 % 65536 = (a + 65536 - b) % 65536 :=
    Nat.mod_mod_of_dvd _ dvd_rfl
  have hcode : (op >>> 11) % 2 = 0 ∨ (op >>> 11) % 2 = 1 :=
    Nat.mod_two_eq_zero_or_one _
  have htyp : op % 4 = 0 ∨ op % 4 = 1 ∨ op % 4 = 2 ∨ op % 4 = 3 := by omega
  rcases htyp with ht | ht | ht | ht
  · rcases hcode with hc | hc
    · rw [logic_char s op a b hc (by omega) ha hb] at hok
      simp only [Except.ok.injEq] at hok
      subst hok
      have hcond : ¬((op >>> 11) % 2 = 1) := by omega
      rw [flagS_testBit]
      simp only [if_neg hcond, ht]
      norm_num
    · rw [add_char s op a b hc ht ha hb ha16 hb16] at hok
      simp only [Except.ok.injEq] at hok
      subst hok
      simp only [hc, ht, flagS_testBit, hmm]
      constructor
      · split_ifs <;> simp_all
      · simp
  · rcases hcode with hc | hc
    · rw [logic_char s op a b hc (by omega) ha hb] at hok
      simp only [Except.ok.injEq] at hok
      subst hok
      have hcond : ¬((op >>> 11) % 2 = 1) := by omega
      rw [flagS_testBit]
      simp only [if_neg hcond, ht]
      norm_num
    · rw [sub_char s op a b hc ht ha hb ha16 hb16] at hok
      simp only [Except.ok.injEq] at hok
      subst hok
      simp only [hc, ht, flagS_testBit, hmm2]
      constructor
      · split_ifs <;> simp_all
      · simp
  · rcases hcode with hc | hc
    · rw [logic_char s op a b hc (by omega) ha hb] at hok
      simp only [Except.ok.injEq] at hok
      subst hok
      have hcond : ¬((op >>> 11) % 2 = 1) := by omega
      rw [flagS_testBit]
      simp only [if_neg hcond, ht]
      norm_num
    · rw [cmp_char s op a b hc ht ha hb ha16 hb16] at hok
      simp only [Except.ok.injEq] at hok
      subst hok
      simp only [hc, ht, flagS_testBit, hmm2]
      constructor
      · split_ifs <;> simp_all
      · simp
  · rw [a_err_char s op ht] at hok
    cases hok

/-- Witness for the amended C4: the wrapping `ADD r0, r3, r3` of the
counterexample, where the pre-wrap raw is 65536 ≠ 0 and hence `Z = 0`. -/
theorem claim_C4_amended_witness :
    (demoSim.read_reg ((0x00E0 &&& 0x086C) >>> 5) = 0x8000 ∧
     demoSim.read_reg ((0x001C &&& 0x086C) >>> 2) = 0x8000 ∧
     demoSim.do_a_class 0x086C = .ok demoSim) ∧
    ((demoSim.flagZ = 1 ↔
      (if (0x0800 &&& 0x086C) >>> 11 = 1 then
        (if 0x0003 &&& 0x086C = 0 then 0x8000 + 0x8000 = 0 else 0x8000 = 0x8000)
       else (if 0x0003 &&& 0x086C = 0 then 0x8000 &&& 0x8000
             else if 0x0003 &&& 0x086C = 1 then 0x8000 ||| 0x8000
             else 0x8000 ^^^ 0x8000) = 0)) ∧
    demoSim.flagS = (if (if (0x0800 &&& 0x086C) >>> 11 = 1 then
                     (if 0x0003 &&& 0x086C = 0 then (0x8000 + 0x8000) % 65536
                      else (0x8000 + 65536 - 0x8000) % 65536)
                   else (if 0x0003 &&& 0x086C = 0 then 0x8000 &&& 0x8000
                         else if 0x0003 &&& 0x086C = 1 then 0x8000 ||| 0x8000
                         else 0x8000 ^^^ 0x8000)).testBit 15
                then 1 else 0)) :=
  ⟨⟨by decide, by decide, by decide⟩,
   claim_C4_amended demoSim demoSim 0x086C 0x8000 0x8000 (by decide) (by decide)
     (by decide) (by decide) (by decide)⟩

/-- Claim C5, code bug.  The claim (and the spec's prose) says I-class
`opc = 1` preserves the low byte and loads the immediate into the high
byte.  The code computes `(read(srcdst) & 0x00FF) | imm` with the raw 8-bit
immediate, i.e. it clears the high byte and ORs the immediate into the low
byte — a missing `imm << 8`.  Concretely (`demoSim`, `r6 = 0x00CD`,
opcode `0x0EAB`: `opc = 1`, `srcdst = 6`, `imm = 0xAB`): the register
becomes `0x00EF`, not the claimed `0xABCD`. -/
theorem claim_C5_eval :
    demoSim.do_i_class 0x0EAB =
      .ok { demoSim with mem := demoSim.mem.set 6 0x00EF } ∧
    ({ demoSim with mem := demoSim.mem.set 6 0x00EF }
      : BonelessSimulator).read_reg 6 = 0x00EF ∧
    (0x00EF : Nat) ≠ 0xABCD := by decide

/-- Claim C6.  When the fetched opcode's 5-bit class field (bits [15:11]) is
outside `{0x00, 0x01} ∪ {0x08 .. 0x0F}`, `stepi` fails with the
"Step Instruction" `NotImplementedError` (the spec's
`UnimplementedInstruction`).  In the embedding an `Except.error` result
carries no successor state: the raise happens before any assignment to
`self`, so the machine state is unchanged. -/
theorem claim_C6 (s : BonelessSimulator) (op : Nat)
    (hfetch : s.mem.getD s.pc 0 = op)
    (h0 : (0xF800 &&& op) >>> 11 ≠ 0x00)
    (h1 : (0xF800 &&& op) >>> 11 ≠ 0x01)
    (h8 : ¬(0x08 ≤ (0xF800 &&& op) >>> 11 ∧ (0xF800 &&& op) >>> 11 ≤ 0x0F)) :
    s.stepi = .error (.notImplemented ("Step Instruction")) := by
  rw [extract_cls] at h0 h1 h8
  simp only [BonelessSimulator.stepi, extract_cls, hfetch]
  have hcont : ([0x08, 0x09, 0x0A, 0x0B, 0x0C, 0x0D, 0x0E, 0x0F] : List Nat).contains
      ((op >>> 11) % 32) = false := by
    simp
    omega
  rw [if_neg (by omega : ¬((op >>> 11) % 32 = 0x00 ∨ (op >>> 11) % 32 = 0x01)), hcont]
  simp

/-- Witness for C6: `demoSim` with a class-2 opcode `0x1000` at `pc`. -/
theorem claim_C6_witness :
    (({ demoSim with mem := demoSim.mem.set 16 0x1000 }
        : BonelessSimulator).mem.getD
      ({ demoSim with mem := demoSim.mem.set 16 0x1000 }
        : BonelessSimulator).pc 0 = 0x1000 ∧
     (0xF800 &&& 0x1000) >>> 11 ≠ 0x00 ∧
     (0xF800 &&& 0x1000) >>> 11 ≠ 0x01 ∧
     ¬(0x08 ≤ (0xF800 &&& 0x1000) >>> 11 ∧ (0xF800 &&& 0x1000) >>> 11 ≤ 0x0F)) ∧
    ({ demoSim with mem := demoSim.mem.set 16 0x1000 }
      : BonelessSimulator).stepi = .error (.notImplemented ("Step Instruction")) :=
  ⟨⟨by decide, by decide, by decide, by decide⟩,
   claim_C6 { demoSim with mem := demoSim.mem.set 16 0x1000 } 0x1000
     (by decide) (by decide) (by decide) (by decide)⟩

/-- Claim C7.  When the fetched opcode is A-class (class field 0 or 1) with
`typ = 3`, `stepi` fails with the "Do A Class" `NotImplementedError` (the
spec's `InvalidEncoding`): the handler raises before writing any register
or flag, and `stepi` only advances `pc` after the handler returns, so no
state is mutated. -/
theorem claim_C7 (s : BonelessSimulator) (op : Nat)
    (hfetch : s.mem.getD s.pc 0 = op)
    (hcls : (0xF800 &&& op) >>> 11 = 0x00 ∨ (0xF800 &&& op) >>> 11 = 0x01)
    (htyp : 0x0003 &&& op = 3) :
    s.stepi = .error (.notImplemented ("Do A Class")) := by
  rw [extract_cls] at hcls
  rw [extract_typ] at htyp
  simp only [BonelessSimulator.stepi, extract_cls, hfetch]
  rcases hcls with h | h <;> simp [h, a_err_char s op htyp]

/-- Witness for C7: `demoSim` with opcode `0x0803` (A-class arithmetic
group, `typ = 3`) at `pc`. -/
theorem claim_C7_witness :
    (({ demoSim with mem := demoSim.mem.set 16 0x0803 }
        : BonelessSimulator).mem.getD
      ({ demoSim with mem := demoSim.mem.set 16 0x0803 }
        : BonelessSimulator).pc 0 = 0x0803 ∧
     ((0xF800 &&& 0x0803) >>> 11 = 0x00 ∨ (0xF800 &&& 0x0803) >>> 11 = 0x01) ∧
     0x0003 &&& 0x0803 = 3) ∧
    ({ demoSim with mem := demoSim.mem.set 16 0x0803 }
      : BonelessSimulator).stepi = .error (.notImplemented ("Do A Class")) :=
  ⟨⟨by decide, by decide, by decide⟩,
   claim_C7 { demoSim with mem := demoSim.mem.set 16 0x0803 } 0x0803
     (by decide) (by decide) (by decide)⟩

/-- Claim C8.  While the run scope is held (`sim_active = true`) each
external mutator — `write_reg`, `set_pc`, `load_program`, `register_io` —
is a silent no-op returning the state unchanged, while the internal
register-write path `_write_reg` used by the instruction handlers writes
unconditionally. -/
theorem claim_C8 (s : BonelessSimulator) (h : s.sim_active = true) :
    (∀ r v, s.write_reg r v = s) ∧
    (∀ p, s.set_pc p = s) ∧
    (∀ c st, s.load_program c st = s) ∧
    (∀ cb, s.register_io_callback cb = s) ∧
    (∀ r v, (s.writeRegInternal r v).mem = s.mem.set (s.reg_loc r) v.toNat) := by
  simp [BonelessSimulator.write_reg, BonelessSimulator.set_pc,
    BonelessSimulator.load_program, BonelessSimulator.register_io_callback,
    BonelessSimulator.writeRegInternal, h]

/-- Witness for C8: `demoSim` inside the run scope (`__enter__`). -/
theorem claim_C8_witness :
    demoSim.enterScope.sim_active = true ∧
    demoSim.enterScope.write_reg 1 5 = demoSim.enterScope ∧
    demoSim.enterScope.set_pc 3 = demoSim.enterScope ∧
    demoSim.enterScope.load_program [1, 2, 3] 0 = demoSim.enterScope ∧
    demoSim.enterScope.register_io_callback 7 = demoSim.enterScope ∧
    (demoSim.enterScope.writeRegInternal 1 5).mem =
      demoSim.enterScope.mem.set (demoSim.enterScope.reg_loc 1) (5 : Int).toNat :=
  ⟨rfl, (claim_C8 _ rfl).1 1 5, (claim_C8 _ rfl).2.1 3,
   (claim_C8 _ rfl).2.2.1 [1, 2, 3] 0, (claim_C8 _ rfl).2.2.2.1 7,
   (claim_C8 _ rfl).2.2.2.2 1 5⟩

/-- Claim C9, counterexample.  The claim says the I-class sub-selector is the
*4-bit* field at bits [14:11].  For opcode `0x4000` that field is
`(0x4000 >>> 11) % 16 = 8 ∉ {0, 1}`, so under the claimed decoder the
opcode would fall to the `InvalidEncoding` branch — but the code (mask
`0x3800`, a 3-bit field) extracts `opc = 0` and succeeds with the load-low
behavior. -/
theorem claim_C9_cex :
    demoSim.do_i_class 0x4000 = .ok { demoSim with mem := demoSim.mem.set 0 0 } ∧
    (0x4000 >>> 11) % 16 = 8 := by decide

/-- Claim C9, amended.  The `opc` sub-selector that chooses between load-low,
load-high and `InvalidEncoding` is the **3-bit** field at bits **[13:11]**
(mask `0x3800`), i.e. `(opcode >>> 11) % 8`: the handler's behavior is
exactly a decoder on that field (bit 14 is ignored). -/
theorem claim_C9_amended (s : BonelessSimulator) (op : Nat) :
    s.do_i_class op =
      if (op >>> 11) % 8 = 0 then
        .ok { s with
          mem := s.mem.set (s.window + (op >>> 8) % 8)
            ((s.read_reg ((op >>> 8) % 8) &&& 0xFF00) ||| op % 256) }
      else if (op >>> 11) % 8 = 1 then
        .ok { s with
          mem := s.mem.set (s.window + (op >>> 8) % 8)
            ((s.read_reg ((op >>> 8) % 8) &&& 0x00FF) ||| op % 256) }
      else .error (.notImplemented ("Do I Class")) := by
  by_cases h0 : (op >>> 11) % 8 = 0
  · rw [if_pos h0]
    exact i_low_char s op h0
  · rw [if_neg h0]
    by_cases h1 : (op >>> 11) % 8 = 1
    · rw [if_pos h1]
      exact i_high_char s op h1
    · rw [if_neg h1]
      exact i_err_char s op (by omega)

/-- Claim C10.  If every memory cell holds a value in `[0, 65536)`, then any
successful `stepi` leaves every memory cell in `[0, 65536)`: all values the
A-class and I-class handlers store are wrapped or bounded into 16 bits. -/
theorem claim_C10 (s s' : BonelessSimulator)
    (hm : ∀ v ∈ s.mem, v < 65536) (h : s.stepi = .ok s') :
    ∀ v ∈ s'.mem, v < 65536 := by
  simp only [BonelessSimulator.stepi, extract_cls] at h
  split at h
  · cases hA : s.do_a_class (s.mem.getD s.pc 0) with
    | error e => rw [hA] at h; simp at h
    | ok s1 =>
      rw [hA] at h
      simp only [Except.ok.injEq] at h
      subst h
      exact do_a_class_mem_lt s s1 _ hm hA
  · split at h
    · cases hA : s.do_i_class (s.mem.getD s.pc 0) with
      | error e => rw [hA] at h; simp at h
      | ok s1 =>
        rw [hA] at h
        simp only [Except.ok.injEq] at h
        subst h
        exact do_i_class_mem_lt s s1 _ hm hA
    · simp at h

/-- Witness for C10: one `ADD r0, r1, r2` step on `demoSim` (opcode
`0x0828` at `pc = 16`). -/
theorem claim_C10_witness :
    (∀ v ∈ demoSim.mem, v < 65536) ∧
    demoSim.stepi = .ok { demoSim with
      pc := 17, flagZ := 0, flagS := 0, flagC := 0, flagV := 0,
      mem := demoSim.mem.set 0 16 } ∧
    (∀ v ∈ ({ demoSim with
        pc := 17, flagZ := 0, flagS := 0, flagC := 0, flagV := 0,
        mem := demoSim.mem.set 0 16 } : BonelessSimulator).mem, v < 65536) :=
  ⟨by decide, by decide,
   claim_C10 demoSim
     { demoSim with
        pc := 17, flagZ := 0, flagS := 0, flagC := 0, flagV := 0,
        mem := demoSim.mem.set 0 16 }
     (by decide) (by decide)⟩

end Boneless
